import Mathlib

/-!
# Verification of the storychat credit ledger

Shallow embedding of the credit-ledger subsystem of the repository:
the `credit_transactions` table, the `CreditManager` SDK
(`src/infra/analytics/tracking/index.ts`), the credits/admin HTTP routes
(`src/api/src/routes/credits.ts`, the admin routes file), the gate policy
(`src/infra/analytics/growth/creditGates.ts`) and the secondary
`user_credits` SDK (the "Credit Management SDK" variant).

The database tables are modelled as lists of rows in insertion order;
each operation is a pure function from table state to (result, new state).
-/

set_option linter.unusedVariables false
set_option linter.unreachableTactic false
set_option linter.unusedTactic false

/-- A row of the `credit_transactions` table (`migrations/0001_initial.sql`):
only the columns the credit logic reads or writes are modelled
(`created_at`, `currency`, `amount_paid`, `metadata` never influence any
modelled computation). -/
structure Txn where
  transaction_id : String
  user_id : String
  transaction_type : String
  credits_amount : Int
  balance_after : Int
  story_id : Option String := none
  chapter_id : Option String := none
  message_id : Option String := none
  idempotency_key : String
  purchase_id : Option String := none
  admin_user_id : Option String := none
  reason : Option String := none
deriving Repr, DecidableEq

/-- The transaction types the balance SQL treats as credits:
`transaction_type IN ('PURCHASE', 'REFUND', 'ADMIN_ADD', 'BONUS', 'PROMO')`. -/
def creditTypes : List String := ["PURCHASE", "REFUND", "ADMIN_ADD", "BONUS", "PROMO"]

/-- The signed contribution of one row to the balance sum:
`CASE WHEN transaction_type IN (...) THEN credits_amount ELSE -credits_amount END`. -/
def signedAmount (t : Txn) : Int :=
  if creditTypes.contains t.transaction_type then t.credits_amount else -t.credits_amount

/-- Result shape of the `CreditManager` operations (`TransactionResult`). -/
structure TransactionResult where
  success : Bool
  transactionId : Option String := none
  newBalance : Int
  error : Option String := none
deriving Repr, DecidableEq

namespace CreditManager

/-- `CreditManager.getBalance` (and the identical route-level `getBalance` in
`src/api/src/routes/credits.ts`): `SELECT COALESCE(SUM(CASE WHEN
transaction_type IN ('PURCHASE','REFUND','ADMIN_ADD','BONUS','PROMO') THEN
credits_amount ELSE -credits_amount END), 0) FROM credit_transactions WHERE
user_id = ?`, with `result?.balance ?? 0` for the empty case. -/
def getBalance (txns : List Txn) (userId : String) : Int :=
  ((txns.filter (fun t => t.user_id == userId)).map signedAmount).sum

/-- The idempotency pre-check of `CreditManager.spend`:
`SELECT ... FROM credit_transactions WHERE idempotency_key = ? AND user_id = ?`,
`.first()`. -/
def findExisting (txns : List Txn) (idempotencyKey userId : String) : Option Txn :=
  txns.find? (fun t => t.idempotency_key == idempotencyKey && t.user_id == userId)

/-- `SpendCreditsInput` of the SDK. -/
structure SpendCreditsInput where
  userId : String
  amount : Int
  storyId : String
  chapterId : Option String := none
  messageId : Option String := none
  idempotencyKey : String
deriving Repr

/-- `CreditManager.spend`: reject non-positive amounts; resolve an existing
entry for `(idempotencyKey, userId)` to its stored outcome; otherwise read the
current balance, fail with `Insufficient credits` if it is below `amount`, and
otherwise insert one `CONSUMPTION` row.  `transactionId` stands for the
generated `tx_${nanoid(12)}`. -/
def spend (txns : List Txn) (transactionId : String) (input : SpendCreditsInput) :
    TransactionResult × List Txn :=
  if input.amount ≤ 0 then
    ({ success := false, newBalance := 0, error := some "Amount must be positive" }, txns)
  else
    match findExisting txns input.idempotencyKey input.userId with
    | some existing =>
        ({ success := true, transactionId := some existing.transaction_id,
           newBalance := existing.balance_after }, txns)
    | none =>
        let currentBalance := getBalance txns input.userId
        if currentBalance < input.amount then
          ({ success := false, newBalance := currentBalance,
             error := some "Insufficient credits" }, txns)
        else
          let newBalance := currentBalance - input.amount
          let entry : Txn :=
            { transaction_id := transactionId
              user_id := input.userId
              transaction_type := "CONSUMPTION"
              credits_amount := input.amount
              balance_after := newBalance
              story_id := some input.storyId
              chapter_id := input.chapterId
              message_id := input.messageId
              idempotency_key := input.idempotencyKey }
          ({ success := true, transactionId := some transactionId, newBalance := newBalance },
           txns ++ [entry])

/-- `AddCreditsInput` of the SDK. -/
structure AddCreditsInput where
  userId : String
  amount : Int
  transactionType : String
  purchaseId : Option String := none
  adminUserId : Option String := none
  reason : Option String := none
  idempotencyKey : Option String := none
deriving Repr

/-- `CreditManager.addCredits`: reject non-positive amounts; otherwise read the
balance and insert one row of the requested type with
`idempotency_key = input.idempotencyKey ?? generated`.  There is no
idempotency lookup before the insert; the only deduplication the source has is
a catch handler for a `UNIQUE constraint failed` error, and the schema declares
no UNIQUE constraint over `idempotency_key` (only the non-unique index
`idx_transactions_idempotency`), so the insert always proceeds.
`freshKeySuffix` stands for the generated `nanoid(8)`. -/
def addCredits (txns : List Txn) (transactionId freshKeySuffix : String)
    (input : AddCreditsInput) : TransactionResult × List Txn :=
  if input.amount ≤ 0 then
    ({ success := false, newBalance := 0, error := some "Amount must be positive" }, txns)
  else
    let usedIdempotencyKey :=
      input.idempotencyKey.getD (input.transactionType ++ "_" ++ freshKeySuffix)
    let currentBalance := getBalance txns input.userId
    let newBalance := currentBalance + input.amount
    let entry : Txn :=
      { transaction_id := transactionId
        user_id := input.userId
        transaction_type := input.transactionType
        credits_amount := input.amount
        balance_after := newBalance
        purchase_id := input.purchaseId
        admin_user_id := input.adminUserId
        reason := input.reason
        idempotency_key := usedIdempotencyKey }
    ({ success := true, transactionId := some transactionId, newBalance := newBalance },
     txns ++ [entry])

end CreditManager

/-- Balance as the spec words it (Invariant I2): the sum of amounts of the
user's entries whose kind credits the user minus the sum of amounts of the
user's entries of any other kind. -/
def specBalance (txns : List Txn) (userId : String) : Int :=
  ((txns.filter (fun t => t.user_id == userId && creditTypes.contains t.transaction_type)).map
      (fun t => t.credits_amount)).sum
    - ((txns.filter (fun t =>
          t.user_id == userId && !(creditTypes.contains t.transaction_type))).map
        (fun t => t.credits_amount)).sum

theorem getBalance_cons (t : Txn) (ts : List Txn) (u : String) :
    CreditManager.getBalance (t :: ts) u
      = (if t.user_id = u then signedAmount t else 0) + CreditManager.getBalance ts u := by
  by_cases hu : t.user_id = u <;>
    simp [CreditManager.getBalance, List.filter_cons, hu]

theorem specBalance_cons (t : Txn) (ts : List Txn) (u : String) :
    specBalance (t :: ts) u
      = (if t.user_id = u then signedAmount t else 0) + specBalance ts u := by
  by_cases hu : t.user_id = u
  · by_cases hc : t.transaction_type ∈ creditTypes <;>
      · simp [specBalance, List.filter_cons, hu, hc, signedAmount]
        omega
  · simp [specBalance, List.filter_cons, hu]

theorem getBalance_eq_specBalance (txns : List Txn) (u : String) :
    CreditManager.getBalance txns u = specBalance txns u := by
  induction txns with
  | nil => rfl
  | cons t ts ih => rw [getBalance_cons, specBalance_cons, ih]

theorem getBalance_map_balance_after (txns : List Txn) (u : String) (f : Txn → Int) :
    CreditManager.getBalance (txns.map (fun t => { t with balance_after := f t })) u
      = CreditManager.getBalance txns u := by
  induction txns with
  | nil => rfl
  | cons t ts ih =>
    simp only [List.map_cons, getBalance_cons, ih]
    rfl

/-- C1: for every user and every ledger state, `getBalance` equals the fold of
the user's entire transaction history — amounts of entries whose type is one of
PURCHASE, REFUND, ADMIN_ADD, BONUS, PROMO added, amounts of all other types
subtracted — and the stored `balance_after` column is not authoritative:
rewriting every row's `balance_after` arbitrarily never changes `getBalance`. -/
theorem C1_balance_is_fold_of_history (txns : List Txn) (u : String) (f : Txn → Int) :
    CreditManager.getBalance txns u = specBalance txns u ∧
    CreditManager.getBalance (txns.map (fun t => { t with balance_after := f t })) u
      = CreditManager.getBalance txns u :=
  ⟨getBalance_eq_specBalance txns u, getBalance_map_balance_after txns u f⟩

/-- C10: a user with no rows in `credit_transactions` — in particular a userId
absent from the `users` table, which `getBalance` never consults — gets balance
`0` (the SQL `COALESCE(..., 0)` plus `result?.balance ?? 0`), not an error:
`getBalance` is a total function into `Int` with no failure outcome. -/
theorem C10_empty_history_balance_zero (txns : List Txn) (u : String)
    (h : txns.filter (fun t => t.user_id == u) = []) :
    CreditManager.getBalance txns u = 0 := by
  simp [CreditManager.getBalance, h]

theorem C10_empty_history_balance_zero_witness :
    ([] : List Txn).filter (fun t => t.user_id == "ghost_user") = [] ∧
    CreditManager.getBalance [] "ghost_user" = 0 :=
  ⟨rfl, C10_empty_history_balance_zero [] "ghost_user" rfl⟩

theorem getBalance_append (txns more : List Txn) (u : String) :
    CreditManager.getBalance (txns ++ more) u
      = CreditManager.getBalance txns u + CreditManager.getBalance more u := by
  simp [CreditManager.getBalance, List.filter_append]

theorem getBalance_singleton (t : Txn) (u : String) :
    CreditManager.getBalance [t] u = if t.user_id = u then signedAmount t else 0 := by
  rw [getBalance_cons]
  simp [CreditManager.getBalance]

theorem spend_invalid_amount (txns : List Txn) (txId : String)
    (input : CreditManager.SpendCreditsInput) (h : input.amount ≤ 0) :
    CreditManager.spend txns txId input =
      ({ success := false, newBalance := 0, error := some "Amount must be positive" }, txns) := by
  simp [CreditManager.spend, h]

theorem spend_replay (txns : List Txn) (txId : String)
    (input : CreditManager.SpendCreditsInput) (e : Txn)
    (h : ¬ input.amount ≤ 0)
    (hf : CreditManager.findExisting txns input.idempotencyKey input.userId = some e) :
    CreditManager.spend txns txId input =
      ({ success := true, transactionId := some e.transaction_id,
         newBalance := e.balance_after }, txns) := by
  simp [CreditManager.spend, h, hf]

theorem spend_insufficient (txns : List Txn) (txId : String)
    (input : CreditManager.SpendCreditsInput)
    (h : ¬ input.amount ≤ 0)
    (hf : CreditManager.findExisting txns input.idempotencyKey input.userId = none)
    (hb : CreditManager.getBalance txns input.userId < input.amount) :
    CreditManager.spend txns txId input =
      ({ success := false, newBalance := CreditManager.getBalance txns input.userId,
         error := some "Insufficient credits" }, txns) := by
  simp [CreditManager.spend, h, hf, hb]

theorem spend_commits (txns : List Txn) (txId : String)
    (input : CreditManager.SpendCreditsInput)
    (h : ¬ input.amount ≤ 0)
    (hf : CreditManager.findExisting txns input.idempotencyKey input.userId = none)
    (hb : ¬ CreditManager.getBalance txns input.userId < input.amount) :
    CreditManager.spend txns txId input =
      ({ success := true, transactionId := some txId,
         newBalance := CreditManager.getBalance txns input.userId - input.amount },
       txns ++ [{ transaction_id := txId
                  user_id := input.userId
                  transaction_type := "CONSUMPTION"
                  credits_amount := input.amount
                  balance_after := CreditManager.getBalance txns input.userId - input.amount
                  story_id := some input.storyId
                  chapter_id := input.chapterId
                  message_id := input.messageId
                  idempotency_key := input.idempotencyKey }]) := by
  simp [CreditManager.spend, h, hf, hb]

/-- JSON body and HTTP status returned by the admin credit routes. -/
structure AdminDeductResponse where
  status : Nat
  success : Bool := false
  error : Option String := none
  requested : Option Int := none
  available : Option Int := none
  transactionId : Option String := none
  amount : Option Int := none
  previousBalance : Option Int := none
  newBalance : Option Int := none
deriving Repr, DecidableEq

/-- POST `/api/admin/credits/deduct` of the admin routes file: refuse a missing
userId or non-positive amount with 400; read the fold balance; refuse with
`Insufficient credits` (reporting `requested` and `available`) when the balance
is below `amount`; otherwise insert one `ADMIN_REMOVE` row recording the acting
admin.  `transactionId` and `idempotencyKey` stand for the generated
`tx_${Date.now()}` and `admin_deduct_${...}_${Date.now()}` values. -/
def adminDeductCredits (txns : List Txn) (adminUserId targetUserId : String)
    (amount : Int) (reason : Option String) (transactionId idempotencyKey : String) :
    AdminDeductResponse × List Txn :=
  if targetUserId = "" ∨ amount ≤ 0 then
    ({ status := 400, error := some "Valid userId and positive amount required" }, txns)
  else
    let currentBalance := CreditManager.getBalance txns targetUserId
    if currentBalance < amount then
      ({ status := 400, error := some "Insufficient credits",
         requested := some amount, available := some currentBalance }, txns)
    else
      let newBalance := currentBalance - amount
      let entry : Txn :=
        { transaction_id := transactionId
          user_id := targetUserId
          transaction_type := "ADMIN_REMOVE"
          credits_amount := amount
          balance_after := newBalance
          admin_user_id := some adminUserId
          reason := some (reason.getD "Admin deduction")
          idempotency_key := idempotencyKey }
      ({ status := 200, success := true, transactionId := some transactionId,
         amount := some (-amount), previousBalance := some currentBalance,
         newBalance := some newBalance }, txns ++ [entry])

theorem adminDeduct_insufficient (txns : List Txn) (a t : String) (amt : Int)
    (r : Option String) (txId k : String)
    (ht : t ≠ "") (h0 : 0 < amt)
    (hb : CreditManager.getBalance txns t < amt) :
    adminDeductCredits txns a t amt r txId k =
      ({ status := 400, error := some "Insufficient credits",
         requested := some amt, available := some (CreditManager.getBalance txns t) }, txns) := by
  have hv : ¬ (t = "" ∨ amt ≤ 0) := by
    push_neg
    exact ⟨ht, by omega⟩
  simp [adminDeductCredits, hv, hb]

theorem adminDeduct_commits (txns : List Txn) (a t : String) (amt : Int)
    (r : Option String) (txId k : String)
    (ht : t ≠ "") (h0 : 0 < amt)
    (hb : ¬ CreditManager.getBalance txns t < amt) :
    adminDeductCredits txns a t amt r txId k =
      ({ status := 200, success := true, transactionId := some txId,
         amount := some (-amt),
         previousBalance := some (CreditManager.getBalance txns t),
         newBalance := some (CreditManager.getBalance txns t - amt) },
       txns ++ [{ transaction_id := txId
                  user_id := t
                  transaction_type := "ADMIN_REMOVE"
                  credits_amount := amt
                  balance_after := CreditManager.getBalance txns t - amt
                  admin_user_id := some a
                  reason := some (r.getD "Admin deduction")
                  idempotency_key := k }]) := by
  have hv : ¬ (t = "" ∨ amt ≤ 0) := by
    push_neg
    exact ⟨ht, by omega⟩
  simp [adminDeductCredits, hv, hb]

/-- One balance-decreasing client operation: a user `spend` (the SDK / unlock
path) or an admin deduction (the admin route).  C2 ranges over sequences of
these. -/
inductive LedgerOp where
  | spendOp (transactionId : String) (input : CreditManager.SpendCreditsInput)
  | adminDeductOp (adminUserId targetUserId : String) (amount : Int)
      (reason : Option String) (transactionId idempotencyKey : String)

/-- The ledger state reached after one operation. -/
def applyOp (txns : List Txn) : LedgerOp → List Txn
  | .spendOp txId input => (CreditManager.spend txns txId input).2
  | .adminDeductOp a t amt r txId k => (adminDeductCredits txns a t amt r txId k).2

/-- The ledger state reached after a sequence of operations. -/
def runOps (txns : List Txn) : List LedgerOp → List Txn
  | [] => txns
  | op :: ops => runOps (applyOp txns op) ops

theorem applyOp_balance_nonneg (txns : List Txn) (op : LedgerOp) (u : String)
    (h : 0 ≤ CreditManager.getBalance txns u) :
    0 ≤ CreditManager.getBalance (applyOp txns op) u := by
  cases op with
  | spendOp txId input =>
    show 0 ≤ CreditManager.getBalance (CreditManager.spend txns txId input).2 u
    by_cases h1 : input.amount ≤ 0
    · rw [spend_invalid_amount txns txId input h1]
      exact h
    · cases hf : CreditManager.findExisting txns input.idempotencyKey input.userId with
      | some e =>
        rw [spend_replay txns txId input e h1 hf]
        exact h
      | none =>
        by_cases h2 : CreditManager.getBalance txns input.userId < input.amount
        · rw [spend_insufficient txns txId input h1 hf h2]
          exact h
        · rw [spend_commits txns txId input h1 hf h2]
          rw [getBalance_append, getBalance_singleton]
          by_cases hu : input.userId = u
          · have hs : signedAmount
                { transaction_id := txId
                  user_id := input.userId
                  transaction_type := "CONSUMPTION"
                  credits_amount := input.amount
                  balance_after := CreditManager.getBalance txns input.userId - input.amount
                  story_id := some input.storyId
                  chapter_id := input.chapterId
                  message_id := input.messageId
                  idempotency_key := input.idempotencyKey }
                = -input.amount := by
              simp [signedAmount, creditTypes]
            rw [if_pos hu, hs]
            rw [hu] at h2
            omega
          · rw [if_neg hu]
            omega
  | adminDeductOp a t amt r txId k =>
    show 0 ≤ CreditManager.getBalance (adminDeductCredits txns a t amt r txId k).2 u
    by_cases hv : t = "" ∨ amt ≤ 0
    · simp [adminDeductCredits, hv]
      exact h
    · push_neg at hv
      by_cases h2 : CreditManager.getBalance txns t < amt
      · rw [adminDeduct_insufficient txns a t amt r txId k hv.1 (by omega) h2]
        exact h
      · rw [adminDeduct_commits txns a t amt r txId k hv.1 (by omega) h2]
        rw [getBalance_append, getBalance_singleton]
        by_cases hu : t = u
        · have hs : signedAmount
              { transaction_id := txId
                user_id := t
                transaction_type := "ADMIN_REMOVE"
                credits_amount := amt
                balance_after := CreditManager.getBalance txns t - amt
                admin_user_id := some a
                reason := some (r.getD "Admin deduction")
                idempotency_key := k }
              = -amt := by
            simp [signedAmount, creditTypes]
          rw [if_pos hu, hs]
          rw [hu] at h2
          omega
        · rw [if_neg hu]
          omega

theorem runOps_balance_nonneg (ops : List LedgerOp) (txns : List Txn) (u : String)
    (h : 0 ≤ CreditManager.getBalance txns u) :
    0 ≤ CreditManager.getBalance (runOps txns ops) u := by
  induction ops generalizing txns with
  | nil => exact h
  | cons op ops ih => exact ih (applyOp txns op) (applyOp_balance_nonneg txns op u h)

/-- C2: starting from any ledger state in which a user's balance is
non-negative, no sequence of spend / admin-deduct operations drives that
balance below zero; moreover a fresh spend whose amount exceeds the current
balance, and an admin deduction whose amount exceeds the current balance, both
return an `Insufficient credits` outcome reporting the available balance and
leave the ledger (hence the balance) unchanged. -/
theorem C2_no_negative_balance (txns : List Txn) (ops : List LedgerOp) (u : String)
    (h : 0 ≤ CreditManager.getBalance txns u) :
    0 ≤ CreditManager.getBalance (runOps txns ops) u ∧
    (∀ txId input, 0 < input.amount →
      CreditManager.findExisting txns input.idempotencyKey input.userId = none →
      CreditManager.getBalance txns input.userId < input.amount →
      CreditManager.spend txns txId input =
        ({ success := false, newBalance := CreditManager.getBalance txns input.userId,
           error := some "Insufficient credits" }, txns)) ∧
    (∀ a t amt r txId k, t ≠ "" → 0 < amt →
      CreditManager.getBalance txns t < amt →
      adminDeductCredits txns a t amt r txId k =
        ({ status := 400, error := some "Insufficient credits",
           requested := some amt,
           available := some (CreditManager.getBalance txns t) }, txns)) := by
  refine ⟨runOps_balance_nonneg ops txns u h, ?_, ?_⟩
  · intro txId input h0 hf hb
    exact spend_insufficient txns txId input (by omega) hf hb
  · intro a t amt r txId k ht h0 hb
    exact adminDeduct_insufficient txns a t amt r txId k ht h0 hb

theorem C2_no_negative_balance_witness :
    0 ≤ CreditManager.getBalance [] "u1" ∧
    (0 ≤ CreditManager.getBalance
        (runOps []
          [LedgerOp.spendOp "txA"
            { userId := "u1", amount := 5, storyId := "s1", idempotencyKey := "kA" },
           LedgerOp.adminDeductOp "admin1" "u1" 200 (some "correction") "txB" "kB"])
        "u1" ∧
      (∀ txId input, 0 < input.amount →
        CreditManager.findExisting [] input.idempotencyKey input.userId = none →
        CreditManager.getBalance [] input.userId < input.amount →
        CreditManager.spend [] txId input =
          ({ success := false, newBalance := CreditManager.getBalance [] input.userId,
             error := some "Insufficient credits" }, [])) ∧
      (∀ a t amt r txId k, t ≠ "" → 0 < amt →
        CreditManager.getBalance [] t < amt →
        adminDeductCredits [] a t amt r txId k =
          ({ status := 400, error := some "Insufficient credits",
             requested := some amt,
             available := some (CreditManager.getBalance [] t) }, []))) :=
  ⟨by decide,
   C2_no_negative_balance []
     [LedgerOp.spendOp "txA"
       { userId := "u1", amount := 5, storyId := "s1", idempotencyKey := "kA" },
      LedgerOp.adminDeductOp "admin1" "u1" 200 (some "correction") "txB" "kB"]
     "u1" (by decide)⟩

/-- C3: evaluation of the code at the failing input.  Replaying
`CreditManager.addCredits` (grant) with the same `(userId, idempotencyKey)` =
`("u1", "k1")` commits a second ledger entry and returns a different outcome
(balance 10 instead of 5): `addCredits` performs no idempotency lookup before
its INSERT, and the schema declares no UNIQUE constraint on
`idempotency_key`, so the duplicate-key catch handler can never fire.  (The
`spend` half of the claim does hold sequentially via its pre-SELECT; see the
`spend_replay` lemma.) -/
theorem C3_grant_replay_commits_twice :
    ((CreditManager.addCredits
        (CreditManager.addCredits [] "tx1" "f1"
          { userId := "u1", amount := 5, transactionType := "BONUS",
            idempotencyKey := some "k1" }).2
        "tx2" "f2"
        { userId := "u1", amount := 5, transactionType := "BONUS",
          idempotencyKey := some "k1" }).2.filter
        (fun t => t.idempotency_key == "k1" && t.user_id == "u1")).length = 2 ∧
    (CreditManager.addCredits [] "tx1" "f1"
      { userId := "u1", amount := 5, transactionType := "BONUS",
        idempotencyKey := some "k1" }).1.newBalance = 5 ∧
    (CreditManager.addCredits
        (CreditManager.addCredits [] "tx1" "f1"
          { userId := "u1", amount := 5, transactionType := "BONUS",
            idempotencyKey := some "k1" }).2
        "tx2" "f2"
        { userId := "u1", amount := 5, transactionType := "BONUS",
          idempotencyKey := some "k1" }).1.newBalance = 10 ∧
    CreditManager.getBalance
      (CreditManager.addCredits
        (CreditManager.addCredits [] "tx1" "f1"
          { userId := "u1", amount := 5, transactionType := "BONUS",
            idempotencyKey := some "k1" }).2
        "tx2" "f2"
        { userId := "u1", amount := 5, transactionType := "BONUS",
          idempotencyKey := some "k1" }).2 "u1" = 10 := by
  decide

namespace CreditManager

/-- The read half of `CreditManager.spend`, up to and including the balance
check: everything the code does before its INSERT round trip.  Returns the
early result (left) or the balance the SELECT observed (right), which the
insert then uses.  In the source these are separate awaited database
statements with no enclosing transaction, so between them the table can change
under a concurrent request. -/
def spendReadPhase (txns : List Txn) (input : SpendCreditsInput) :
    TransactionResult ⊕ Int :=
  if input.amount ≤ 0 then
    Sum.inl { success := false, newBalance := 0, error := some "Amount must be positive" }
  else
    match findExisting txns input.idempotencyKey input.userId with
    | some existing =>
        Sum.inl { success := true, transactionId := some existing.transaction_id,
                  newBalance := existing.balance_after }
    | none =>
        let currentBalance := getBalance txns input.userId
        if currentBalance < input.amount then
          Sum.inl { success := false, newBalance := currentBalance,
                    error := some "Insufficient credits" }
        else Sum.inr currentBalance

/-- The write half of `CreditManager.spend`: the INSERT of the `CONSUMPTION`
row, computed from the balance observed by the (possibly stale) read phase. -/
def spendWritePhase (txns : List Txn) (transactionId : String)
    (input : SpendCreditsInput) (observedBalance : Int) :
    TransactionResult × List Txn :=
  let newBalance := observedBalance - input.amount
  let entry : Txn :=
    { transaction_id := transactionId
      user_id := input.userId
      transaction_type := "CONSUMPTION"
      credits_amount := input.amount
      balance_after := newBalance
      story_id := some input.storyId
      chapter_id := input.chapterId
      message_id := input.messageId
      idempotency_key := input.idempotencyKey }
  ({ success := true, transactionId := some transactionId, newBalance := newBalance },
   txns ++ [entry])

end CreditManager

/-- The two phases, run back to back on the same state, are exactly the
sequential `CreditManager.spend`: the split is at the I/O boundary only. -/
theorem spend_eq_phases (txns : List Txn) (txId : String)
    (input : CreditManager.SpendCreditsInput) :
    CreditManager.spend txns txId input =
      (match CreditManager.spendReadPhase txns input with
       | Sum.inl r => (r, txns)
       | Sum.inr observed => CreditManager.spendWritePhase txns txId input observed) := by
  by_cases h1 : input.amount ≤ 0
  · simp [CreditManager.spend, CreditManager.spendReadPhase, h1]
  · cases hf : CreditManager.findExisting txns input.idempotencyKey input.userId with
    | some e =>
      simp [CreditManager.spend, CreditManager.spendReadPhase, h1, hf]
    | none =>
      by_cases h2 : CreditManager.getBalance txns input.userId < input.amount
      · simp [CreditManager.spend, CreditManager.spendReadPhase, h1, hf, h2]
      · simp [CreditManager.spend, CreditManager.spendReadPhase,
              CreditManager.spendWritePhase, h1, hf, h2]

/-- C5: evaluation of the code at the failing input.  User `u3` holds balance
10 (one PURCHASE entry); two concurrent `spend(amount = 10)` calls use the
distinct keys `A` and `B`.  Since the balance SELECT and the INSERT are
separate round trips with no transaction (`spend_eq_phases` shows the split is
exactly the code's spend), the schedule in which both read phases run before
either write phase lets both calls observe balance 10, pass the check, and
commit: two CONSUMPTION entries exist and the final balance is -10, not 0. -/
theorem C5_concurrent_spend_goes_negative :
    CreditManager.spendReadPhase
        [{ transaction_id := "tx_seed", user_id := "u3",
           transaction_type := "PURCHASE", credits_amount := 10,
           balance_after := 10, idempotency_key := "seed" }]
        { userId := "u3", amount := 10, storyId := "s1", idempotencyKey := "A" }
      = Sum.inr 10 ∧
    CreditManager.spendReadPhase
        [{ transaction_id := "tx_seed", user_id := "u3",
           transaction_type := "PURCHASE", credits_amount := 10,
           balance_after := 10, idempotency_key := "seed" }]
        { userId := "u3", amount := 10, storyId := "s1", idempotencyKey := "B" }
      = Sum.inr 10 ∧
    CreditManager.getBalance
        (CreditManager.spendWritePhase
          (CreditManager.spendWritePhase
            [{ transaction_id := "tx_seed", user_id := "u3",
               transaction_type := "PURCHASE", credits_amount := 10,
               balance_after := 10, idempotency_key := "seed" }]
            "txA"
            { userId := "u3", amount := 10, storyId := "s1", idempotencyKey := "A" }
            10).2
          "txB"
          { userId := "u3", amount := 10, storyId := "s1", idempotencyKey := "B" }
          10).2
        "u3" = -10 ∧
    ((CreditManager.spendWritePhase
          (CreditManager.spendWritePhase
            [{ transaction_id := "tx_seed", user_id := "u3",
               transaction_type := "PURCHASE", credits_amount := 10,
               balance_after := 10, idempotency_key := "seed" }]
            "txA"
            { userId := "u3", amount := 10, storyId := "s1", idempotencyKey := "A" }
            10).2
          "txB"
          { userId := "u3", amount := 10, storyId := "s1", idempotencyKey := "B" }
          10).2.filter
        (fun t => t.transaction_type == "CONSUMPTION" && t.user_id == "u3")).length = 2 := by
  decide

/-- A row of the `credit_gates` configuration table. -/
structure CreditGateRow where
  story_id : String
  chapter_id : String
  messages_free : Int
  messages_per_credit : Int
  chapter_credits : Int
  gate_type : String
deriving Repr, DecidableEq

/-- `Math.ceil(a / b)` for integer operands and positive `b` (the only use in
`evaluateGate` has `a ≥ 0`; the divisor is the configured
`messages_per_credit`, default 1). -/
def ceilDivInt (a b : Int) : Int := (a + b - 1).ediv b

/-- Decision record returned by `CreditGateManager.evaluateGate`. -/
structure GateDecision where
  shouldShow : Bool
  creditsRequired : Int
  messagesRemaining : Int
  reason : String
deriving Repr, DecidableEq

/-- The first-chapter test of `evaluateGate`:
`chapterId.endsWith('_1') || chapterId === 'chapter_1' || chapterId === '1'`.
The JS `endsWith` is modelled as a suffix test on the character list. -/
def isFirstChapter (chapterId : String) : Bool :=
  "_1".toList.isSuffixOf chapterId.toList || chapterId == "chapter_1" || chapterId == "1"

/-- `CreditGateManager.evaluateGate`: chapter 1 is always free; within the
configured free-message window nothing is charged; past it the required
credits are `Math.ceil(messagesBeyondFree / creditsPerMsg)` — and the method
then reads the user's live balance and sets
`shouldShow = currentBalance < creditsRequired` with reason
`insufficient_credits` / `can_continue`. -/
def evaluateGate (gates : List CreditGateRow) (txns : List Txn)
    (userId storyId chapterId : String) (messageIndex totalMessages : Int) :
    GateDecision :=
  if isFirstChapter chapterId then
    { shouldShow := false, creditsRequired := 0,
      messagesRemaining := totalMessages - messageIndex, reason := "first_chapter_free" }
  else
    let config := gates.find? (fun g => g.story_id == storyId && g.chapter_id == chapterId)
    let messagesFree := (config.map (fun g => g.messages_free)).getD 3
    let creditsPerMsg := (config.map (fun g => g.messages_per_credit)).getD 1
    if messageIndex < messagesFree then
      { shouldShow := false, creditsRequired := 0,
        messagesRemaining := messagesFree - messageIndex,
        reason := "free_messages_remaining" }
    else
      let messagesBeyondFree := messageIndex - messagesFree
      let creditsRequired := ceilDivInt messagesBeyondFree creditsPerMsg
      let currentBalance := CreditManager.getBalance txns userId
      { shouldShow := decide (currentBalance < creditsRequired)
        creditsRequired := creditsRequired
        messagesRemaining := 0
        reason := if currentBalance < creditsRequired then "insufficient_credits"
                  else "can_continue" }

/-- C7 counterexample: the gate decision is NOT independent of the user's
balance.  Same gate configuration, same chapter and progress; with balance 0
the gate returns `shouldShow = true, reason = "insufficient_credits"`, with
balance 100 it returns `shouldShow = false, reason = "can_continue"` — the
gate itself compares the live balance to the required cost. -/
theorem C7_counterexample_gate_reads_balance :
    evaluateGate [] [] "u1" "story1" "chapter_2" 10 20
      = { shouldShow := true, creditsRequired := 7, messagesRemaining := 0,
          reason := "insufficient_credits" } ∧
    evaluateGate []
        [{ transaction_id := "t", user_id := "u1", transaction_type := "PURCHASE",
           credits_amount := 100, balance_after := 100, idempotency_key := "k" }]
        "u1" "story1" "chapter_2" 10 20
      = { shouldShow := false, creditsRequired := 7, messagesRemaining := 0,
          reason := "can_continue" } ∧
    evaluateGate [] [] "u1" "story1" "chapter_2" 10 20
      ≠ evaluateGate []
          [{ transaction_id := "t", user_id := "u1", transaction_type := "PURCHASE",
             credits_amount := 100, balance_after := 100, idempotency_key := "k" }]
          "u1" "story1" "chapter_2" 10 20 := by
  decide

/-- C7 (amended): past the free-message window of a non-first chapter,
`evaluateGate` reports the required cost computed from the gate policy AND
itself decides payment feasibility against the live balance:
`shouldShow` is exactly `balance < creditsRequired`, with reason
`insufficient_credits` / `can_continue`; feasibility is not left to the
unlock step. -/
theorem C7_gate_decides_feasibility (gates : List CreditGateRow) (txns : List Txn)
    (userId storyId chapterId : String) (messageIndex totalMessages : Int)
    (hch : isFirstChapter chapterId = false)
    (hmi : ¬ messageIndex <
      (((gates.find? (fun g => g.story_id == storyId && g.chapter_id == chapterId)).map
          (fun g => g.messages_free)).getD 3)) :
    (evaluateGate gates txns userId storyId chapterId messageIndex totalMessages).creditsRequired
      = ceilDivInt
          (messageIndex -
            (((gates.find? (fun g => g.story_id == storyId && g.chapter_id == chapterId)).map
                (fun g => g.messages_free)).getD 3))
          (((gates.find? (fun g => g.story_id == storyId && g.chapter_id == chapterId)).map
              (fun g => g.messages_per_credit)).getD 1) ∧
    ((evaluateGate gates txns userId storyId chapterId messageIndex totalMessages).shouldShow = true
      ↔ CreditManager.getBalance txns userId <
          (evaluateGate gates txns userId storyId chapterId messageIndex totalMessages).creditsRequired) ∧
    ((evaluateGate gates txns userId storyId chapterId messageIndex totalMessages).reason
        = "insufficient_credits"
      ↔ CreditManager.getBalance txns userId <
          (evaluateGate gates txns userId storyId chapterId messageIndex totalMessages).creditsRequired) ∧
    ((evaluateGate gates txns userId storyId chapterId messageIndex totalMessages).reason
        = "can_continue"
      ↔ ¬ CreditManager.getBalance txns userId <
          (evaluateGate gates txns userId storyId chapterId messageIndex totalMessages).creditsRequired) := by
  simp only [evaluateGate, hch, Bool.false_eq_true, if_false, hmi]
  by_cases hb : CreditManager.getBalance txns userId <
      ceilDivInt
        (messageIndex -
          (((gates.find? (fun g => g.story_id == storyId && g.chapter_id == chapterId)).map
              (fun g => g.messages_free)).getD 3))
        (((gates.find? (fun g => g.story_id == storyId && g.chapter_id == chapterId)).map
            (fun g => g.messages_per_credit)).getD 1)
  · simp [hb]
  · simp [hb]

theorem C7_gate_decides_feasibility_witness :
    isFirstChapter "chapter_2" = false ∧
    ¬ (10:Int) <
      ((((List.nil : List CreditGateRow).find?
          (fun g => g.story_id == "story1" && g.chapter_id == "chapter_2")).map
          (fun g => g.messages_free)).getD 3) ∧
    ((evaluateGate [] [] "u1" "story1" "chapter_2" 10 20).creditsRequired
      = ceilDivInt
          ((10:Int) -
            ((((List.nil : List CreditGateRow).find?
                (fun g => g.story_id == "story1" && g.chapter_id == "chapter_2")).map
                (fun g => g.messages_free)).getD 3))
          ((((List.nil : List CreditGateRow).find?
              (fun g => g.story_id == "story1" && g.chapter_id == "chapter_2")).map
              (fun g => g.messages_per_credit)).getD 1) ∧
    ((evaluateGate [] [] "u1" "story1" "chapter_2" 10 20).shouldShow = true
      ↔ CreditManager.getBalance [] "u1" <
          (evaluateGate [] [] "u1" "story1" "chapter_2" 10 20).creditsRequired) ∧
    ((evaluateGate [] [] "u1" "story1" "chapter_2" 10 20).reason = "insufficient_credits"
      ↔ CreditManager.getBalance [] "u1" <
          (evaluateGate [] [] "u1" "story1" "chapter_2" 10 20).creditsRequired) ∧
    ((evaluateGate [] [] "u1" "story1" "chapter_2" 10 20).reason = "can_continue"
      ↔ ¬ CreditManager.getBalance [] "u1" <
          (evaluateGate [] [] "u1" "story1" "chapter_2" 10 20).creditsRequired)) :=
  ⟨by decide, by decide,
   C7_gate_decides_feasibility [] [] "u1" "story1" "chapter_2" 10 20 (by decide) (by decide)⟩

/-- One engagement tier of `checkBonusEligibility`. -/
structure BonusTier where
  minSeconds : Int
  credits : Int
  reason : String
deriving Repr, DecidableEq

/-- The ordered tier table of `checkBonusEligibility`. -/
def bonusTiers : List BonusTier :=
  [{ minSeconds := 300, credits := 1, reason := "waited_5_min" },
   { minSeconds := 600, credits := 2, reason := "waited_10_min" },
   { minSeconds := 1800, credits := 5, reason := "waited_30_min" }]

/-- Result of `CreditGateManager.checkBonusEligibility`. -/
structure BonusResult where
  eligible : Bool
  bonusCredits : Int
  reason : String
deriving Repr, DecidableEq

/-- `CreditGateManager.checkBonusEligibility`: iterate
`tiers.slice().reverse()` (highest tier first) and return at the first tier
with `engagementSeconds >= tier.minSeconds`; otherwise not eligible. -/
def checkBonusEligibility (engagementSeconds : Int) : BonusResult :=
  match bonusTiers.reverse.find? (fun t => decide (t.minSeconds ≤ engagementSeconds)) with
  | some t => { eligible := true, bonusCredits := t.credits, reason := t.reason }
  | none => { eligible := false, bonusCredits := 0, reason := "no_bonus_yet" }

theorem checkBonusEligibility_eq (s : Int) :
    checkBonusEligibility s =
      if 1800 ≤ s then { eligible := true, bonusCredits := 5, reason := "waited_30_min" }
      else if 600 ≤ s then { eligible := true, bonusCredits := 2, reason := "waited_10_min" }
      else if 300 ≤ s then { eligible := true, bonusCredits := 1, reason := "waited_5_min" }
      else { eligible := false, bonusCredits := 0, reason := "no_bonus_yet" } := by
  by_cases h1 : (1800:Int) ≤ s <;> by_cases h2 : (600:Int) ≤ s <;>
    by_cases h3 : (300:Int) ≤ s <;>
    simp [checkBonusEligibility, bonusTiers, List.find?, h1, h2, h3] <;> omega

/-- C9: for every engagement duration, `checkBonusEligibility` returns the
single highest tier reached — its bonus equals the maximum (not the sum) of
the credits of all tiers reached — and below 300 seconds it returns
not-eligible with 0 bonus credits.  At 1800 seconds the bonus is the top
tier's 5, not the across-tier sum 8. -/
theorem C9_bonus_is_highest_tier (s : Int) :
    (checkBonusEligibility s).bonusCredits
      = ((bonusTiers.filter (fun t => decide (t.minSeconds ≤ s))).map
          (fun t => t.credits)).foldr max 0 ∧
    (checkBonusEligibility s).eligible
      = bonusTiers.any (fun t => decide (t.minSeconds ≤ s)) ∧
    (s < 300 →
      checkBonusEligibility s
        = { eligible := false, bonusCredits := 0, reason := "no_bonus_yet" }) ∧
    (checkBonusEligibility 1800).bonusCredits
      ≠ ((bonusTiers.filter (fun t => decide (t.minSeconds ≤ (1800:Int)))).map
          (fun t => t.credits)).sum := by
  refine ⟨?_, ?_, ?_, by decide⟩ <;>
    [skip; skip; intro hlt] <;>
    rw [checkBonusEligibility_eq] <;>
    by_cases h1 : (1800:Int) ≤ s <;> by_cases h2 : (600:Int) ≤ s <;>
      by_cases h3 : (300:Int) ≤ s <;>
      simp [bonusTiers, List.filter, h1, h2, h3] <;> omega

theorem C9_bonus_is_highest_tier_witness :
    ((checkBonusEligibility 250).bonusCredits
      = ((bonusTiers.filter (fun t => decide (t.minSeconds ≤ (250:Int)))).map
          (fun t => t.credits)).foldr max 0 ∧
    (checkBonusEligibility 250).eligible
      = bonusTiers.any (fun t => decide (t.minSeconds ≤ (250:Int))) ∧
    ((250:Int) < 300 →
      checkBonusEligibility 250
        = { eligible := false, bonusCredits := 0, reason := "no_bonus_yet" }) ∧
    (checkBonusEligibility 1800).bonusCredits
      ≠ ((bonusTiers.filter (fun t => decide (t.minSeconds ≤ (1800:Int)))).map
          (fun t => t.credits)).sum) ∧
    checkBonusEligibility 250
      = { eligible := false, bonusCredits := 0, reason := "no_bonus_yet" } :=
  ⟨C9_bonus_is_highest_tier 250, ((C9_bonus_is_highest_tier 250).2.2.1 (by decide))⟩

/-- A row of `chapters` as read by the unlock route (`is_free` is the SQLite
0/1 flag, modelled as Bool). -/
structure Chapter where
  id : String
  story_id : String
  chapter_number : Int
  unlock_cost : Int
  is_free : Bool
deriving Repr, DecidableEq

/-- A row of `user_chapters` — the entitlement record.  The unlock route only
ever inserts these with `unlocked_at = datetime('now')` set, and its
already-unlocked check filters on `unlocked_at IS NOT NULL`, so a row here is
an unlocked row. -/
structure UserChapter where
  id : String
  user_id : String
  story_id : String
  chapter_id : String
deriving Repr, DecidableEq

/-- A row of the analytics `events` table as written by the unlock route
(not a ledger entry). -/
structure EventRow where
  user_id : String
  event_type : String
  story_id : Option String := none
  chapter_id : Option String := none
  credits_delta : Int := 0
deriving Repr, DecidableEq

/-- The database state POST `/api/credits/unlock` touches. -/
structure Db where
  chapters : List Chapter
  user_chapters : List UserChapter
  credit_transactions : List Txn
  events : List EventRow
deriving Repr, DecidableEq

/-- JSON body and HTTP status of the unlock response. -/
structure UnlockResponse where
  status : Nat
  success : Bool := false
  message : Option String := none
  totalCost : Option Int := none
  creditsRemaining : Option Int := none
  error : Option String := none
  requiredCredits : Option Int := none
  yourBalance : Option Int := none
deriving Repr, DecidableEq

/-- Modelled from the spec: the success tail of POST `/api/credits/unlock` in
`src/api/src/routes/credits.ts` is cut off in the source right after
`INSERT INTO user_chapters (id, user_id`; per the spec's UnlockCoordinator
step 4 (and the complete sibling route in the Hono credits router), the tail
inserts the `user_chapters` entitlement row and returns success with the
charged cost and remaining balance.  Everything before that point is embedded
from the visible source: validate the chapter id; 404 on unknown chapter;
short-circuit `Already unlocked`; free chapters insert only the entitlement
row plus an analytics event and charge nothing; paid chapters call the spend
logic (the route-level `spendCredits`, identical to `CreditManager.spend` up
to the unused `reason`/`message_id` context columns) and return 402 carrying
`requiredCredits` and the available balance when it fails.
`freshKey`, `txId`, `ucId` stand for the generated
`unlock_${userId}_${chapterId}_${Date.now()}`, transaction id and
`generateId()` values. -/
def unlockChapterRoute (db : Db) (userId chapterId : String)
    (idempotencyKey : Option String) (freshKey txId ucId : String) :
    UnlockResponse × Db :=
  if chapterId = "" then
    ({ status := 400, error := some "Chapter ID required" }, db)
  else
    match db.chapters.find? (fun c => c.id == chapterId) with
    | none => ({ status := 404, error := some "Chapter not found" }, db)
    | some chapter =>
      if db.user_chapters.any (fun uc => uc.user_id == userId && uc.chapter_id == chapterId) then
        ({ status := 200, success := true, message := some "Already unlocked" }, db)
      else if chapter.is_free then
        let db' : Db := { db with
          user_chapters := db.user_chapters ++
            [{ id := ucId, user_id := userId, story_id := chapter.story_id,
               chapter_id := chapterId }]
          events := db.events ++
            [{ user_id := userId, event_type := "chapter_started",
               story_id := some chapter.story_id, chapter_id := some chapterId,
               credits_delta := 0 }] }
        ({ status := 200, success := true, message := some "Chapter unlocked (free)",
           totalCost := some 0,
           creditsRemaining := some (CreditManager.getBalance db'.credit_transactions userId) },
         db')
      else
        let key := idempotencyKey.getD freshKey
        let spendResult := CreditManager.spend db.credit_transactions txId
          { userId := userId, amount := chapter.unlock_cost,
            storyId := chapter.story_id, chapterId := some chapterId,
            idempotencyKey := key }
        if spendResult.1.success = false then
          ({ status := 402, error := spendResult.1.error,
             requiredCredits := some chapter.unlock_cost,
             yourBalance := some spendResult.1.newBalance },
           { db with credit_transactions := spendResult.2 })
        else
          let db' : Db := { db with
            credit_transactions := spendResult.2
            user_chapters := db.user_chapters ++
              [{ id := ucId, user_id := userId, story_id := chapter.story_id,
                 chapter_id := chapterId }] }
          ({ status := 200, success := true, message := some "Chapter unlocked",
             totalCost := some chapter.unlock_cost,
             creditsRemaining := some spendResult.1.newBalance }, db')

/-- C4: for an unlock call whose effective idempotency key is fresh in the
ledger, (a) a success response carrying a positive charged cost implies that
afterwards both the `CONSUMPTION` ledger entry for this chapter and the
`user_chapters` entitlement row exist, and (b) any failure response
(`success = false`: bad request, chapter not found, payment required) leaves
the whole database state unchanged — no ledger entry and no entitlement. -/
theorem C4_unlock_atomicity (db : Db) (userId chapterId : String)
    (idempotencyKey : Option String) (freshKey txId ucId : String)
    (hkey : CreditManager.findExisting db.credit_transactions
        (idempotencyKey.getD freshKey) userId = none) :
    (∀ c : Int,
      (unlockChapterRoute db userId chapterId idempotencyKey freshKey txId ucId).1.success = true →
      (unlockChapterRoute db userId chapterId idempotencyKey freshKey txId ucId).1.totalCost = some c →
      0 < c →
      (∃ t ∈ (unlockChapterRoute db userId chapterId idempotencyKey freshKey txId
                ucId).2.credit_transactions,
          t.user_id = userId ∧ t.transaction_type = "CONSUMPTION" ∧
          t.chapter_id = some chapterId ∧ t.credits_amount = c) ∧
      (∃ uc ∈ (unlockChapterRoute db userId chapterId idempotencyKey freshKey txId
                ucId).2.user_chapters,
          uc.user_id = userId ∧ uc.chapter_id = chapterId)) ∧
    ((unlockChapterRoute db userId chapterId idempotencyKey freshKey txId ucId).1.success = false →
      (unlockChapterRoute db userId chapterId idempotencyKey freshKey txId ucId).2 = db) := by
  unfold unlockChapterRoute
  by_cases h0 : chapterId = ""
  · simp [h0]
  · simp only [h0, if_false]
    cases hc : db.chapters.find? (fun c => c.id == chapterId) with
    | none => simp
    | some chapter =>
      simp only
      by_cases ha : db.user_chapters.any
          (fun uc => uc.user_id == userId && uc.chapter_id == chapterId)
      · simp [ha]
      · simp only [ha, Bool.false_eq_true, if_false]
        by_cases hfree : chapter.is_free
        · simp only [hfree, if_true]
          constructor
          · intro c _ hcost hpos
            simp at hcost
            omega
          · intro hfalse
            simp at hfalse
        · simp only [hfree, Bool.false_eq_true, if_false]
          by_cases hamt : chapter.unlock_cost ≤ 0
          · rw [spend_invalid_amount db.credit_transactions txId _ hamt]
            simp
          · by_cases hbal : CreditManager.getBalance db.credit_transactions userId
                < chapter.unlock_cost
            · rw [spend_insufficient db.credit_transactions txId _ hamt hkey hbal]
              simp
            · rw [spend_commits db.credit_transactions txId _ hamt hkey hbal]
              simp only [Prod.fst, Prod.snd]
              constructor
              · intro c _ hcost hpos
                simp at hcost
                constructor
                · refine ⟨_, List.mem_append_right _ (List.mem_singleton.mpr rfl), ?_⟩
                  simp
                  omega
                · exact ⟨_, List.mem_append_right _ (List.mem_singleton.mpr rfl), rfl, rfl⟩
              · intro hfalse
                simp at hfalse

theorem C4_unlock_atomicity_witness :
    CreditManager.findExisting
        [{ transaction_id := "tx0", user_id := "u1", transaction_type := "PURCHASE",
           credits_amount := 10, balance_after := 10, idempotency_key := "seed" }]
        ((some "kU").getD "fresh") "u1" = none ∧
    ((∀ c : Int,
      (unlockChapterRoute
        { chapters := [{ id := "ch2", story_id := "s1", chapter_number := 2,
                         unlock_cost := 10, is_free := false }]
          user_chapters := []
          credit_transactions :=
            [{ transaction_id := "tx0", user_id := "u1", transaction_type := "PURCHASE",
               credits_amount := 10, balance_after := 10, idempotency_key := "seed" }]
          events := [] }
        "u1" "ch2" (some "kU") "fresh" "txA" "uc1").1.success = true →
      (unlockChapterRoute
        { chapters := [{ id := "ch2", story_id := "s1", chapter_number := 2,
                         unlock_cost := 10, is_free := false }]
          user_chapters := []
          credit_transactions :=
            [{ transaction_id := "tx0", user_id := "u1", transaction_type := "PURCHASE",
               credits_amount := 10, balance_after := 10, idempotency_key := "seed" }]
          events := [] }
        "u1" "ch2" (some "kU") "fresh" "txA" "uc1").1.totalCost = some c →
      0 < c →
      (∃ t ∈ (unlockChapterRoute
        { chapters := [{ id := "ch2", story_id := "s1", chapter_number := 2,
                         unlock_cost := 10, is_free := false }]
          user_chapters := []
          credit_transactions :=
            [{ transaction_id := "tx0", user_id := "u1", transaction_type := "PURCHASE",
               credits_amount := 10, balance_after := 10, idempotency_key := "seed" }]
          events := [] }
        "u1" "ch2" (some "kU") "fresh" "txA" "uc1").2.credit_transactions,
          t.user_id = "u1" ∧ t.transaction_type = "CONSUMPTION" ∧
          t.chapter_id = some "ch2" ∧ t.credits_amount = c) ∧
      (∃ uc ∈ (unlockChapterRoute
        { chapters := [{ id := "ch2", story_id := "s1", chapter_number := 2,
                         unlock_cost := 10, is_free := false }]
          user_chapters := []
          credit_transactions :=
            [{ transaction_id := "tx0", user_id := "u1", transaction_type := "PURCHASE",
               credits_amount := 10, balance_after := 10, idempotency_key := "seed" }]
          events := [] }
        "u1" "ch2" (some "kU") "fresh" "txA" "uc1").2.user_chapters,
          uc.user_id = "u1" ∧ uc.chapter_id = "ch2")) ∧
    ((unlockChapterRoute
        { chapters := [{ id := "ch2", story_id := "s1", chapter_number := 2,
                         unlock_cost := 10, is_free := false }]
          user_chapters := []
          credit_transactions :=
            [{ transaction_id := "tx0", user_id := "u1", transaction_type := "PURCHASE",
               credits_amount := 10, balance_after := 10, idempotency_key := "seed" }]
          events := [] }
        "u1" "ch2" (some "kU") "fresh" "txA" "uc1").1.success = false →
      (unlockChapterRoute
        { chapters := [{ id := "ch2", story_id := "s1", chapter_number := 2,
                         unlock_cost := 10, is_free := false }]
          user_chapters := []
          credit_transactions :=
            [{ transaction_id := "tx0", user_id := "u1", transaction_type := "PURCHASE",
               credits_amount := 10, balance_after := 10, idempotency_key := "seed" }]
          events := [] }
        "u1" "ch2" (some "kU") "fresh" "txA" "uc1").2 =
        { chapters := [{ id := "ch2", story_id := "s1", chapter_number := 2,
                         unlock_cost := 10, is_free := false }]
          user_chapters := []
          credit_transactions :=
            [{ transaction_id := "tx0", user_id := "u1", transaction_type := "PURCHASE",
               credits_amount := 10, balance_after := 10, idempotency_key := "seed" }]
          events := [] })) :=
  ⟨by decide,
   C4_unlock_atomicity
     { chapters := [{ id := "ch2", story_id := "s1", chapter_number := 2,
                      unlock_cost := 10, is_free := false }]
       user_chapters := []
       credit_transactions :=
         [{ transaction_id := "tx0", user_id := "u1", transaction_type := "PURCHASE",
            credits_amount := 10, balance_after := 10, idempotency_key := "seed" }]
       events := [] }
     "u1" "ch2" (some "kU") "fresh" "txA" "uc1" (by decide)⟩

/-- C6: a chapter marked free that the user has not yet unlocked unlocks for
every user and every ledger state — no hypothesis about the balance, so in
particular balance 0 — with a success response of `totalCost = 0`; the
`user_chapters` entitlement row is created and the credit ledger is left
completely untouched (no ledger entry appended). -/
theorem C6_free_unlock (db : Db) (userId chapterId : String)
    (idempotencyKey : Option String) (freshKey txId ucId : String) (chapter : Chapter)
    (hid : chapterId ≠ "")
    (hc : db.chapters.find? (fun c => c.id == chapterId) = some chapter)
    (hfree : chapter.is_free = true)
    (hnew : db.user_chapters.any
      (fun uc => uc.user_id == userId && uc.chapter_id == chapterId) = false) :
    (unlockChapterRoute db userId chapterId idempotencyKey freshKey txId ucId).1.success = true ∧
    (unlockChapterRoute db userId chapterId idempotencyKey freshKey txId ucId).1.totalCost
      = some 0 ∧
    (∃ uc ∈ (unlockChapterRoute db userId chapterId idempotencyKey freshKey txId
              ucId).2.user_chapters,
        uc.user_id = userId ∧ uc.chapter_id = chapterId) ∧
    (unlockChapterRoute db userId chapterId idempotencyKey freshKey txId
        ucId).2.credit_transactions = db.credit_transactions := by
  unfold unlockChapterRoute
  rw [if_neg hid, hc]
  simp [hnew, hfree]
  exact ⟨{ id := ucId, user_id := userId, story_id := chapter.story_id,
           chapter_id := chapterId }, Or.inr rfl, rfl, rfl⟩

theorem C6_free_unlock_witness :
    ("ch1" : String) ≠ "" ∧
    (Db.chapters
        { chapters := [{ id := "ch1", story_id := "s1", chapter_number := 1,
                         unlock_cost := 10, is_free := true }]
          user_chapters := [], credit_transactions := [], events := [] }).find?
        (fun c => c.id == "ch1")
      = some { id := "ch1", story_id := "s1", chapter_number := 1,
               unlock_cost := 10, is_free := true } ∧
    ((unlockChapterRoute
        { chapters := [{ id := "ch1", story_id := "s1", chapter_number := 1,
                         unlock_cost := 10, is_free := true }]
          user_chapters := [], credit_transactions := [], events := [] }
        "u0" "ch1" none "fresh" "txA" "uc1").1.success = true ∧
    (unlockChapterRoute
        { chapters := [{ id := "ch1", story_id := "s1", chapter_number := 1,
                         unlock_cost := 10, is_free := true }]
          user_chapters := [], credit_transactions := [], events := [] }
        "u0" "ch1" none "fresh" "txA" "uc1").1.totalCost = some 0 ∧
    (∃ uc ∈ (unlockChapterRoute
        { chapters := [{ id := "ch1", story_id := "s1", chapter_number := 1,
                         unlock_cost := 10, is_free := true }]
          user_chapters := [], credit_transactions := [], events := [] }
        "u0" "ch1" none "fresh" "txA" "uc1").2.user_chapters,
        uc.user_id = "u0" ∧ uc.chapter_id = "ch1") ∧
    (unlockChapterRoute
        { chapters := [{ id := "ch1", story_id := "s1", chapter_number := 1,
                         unlock_cost := 10, is_free := true }]
          user_chapters := [], credit_transactions := [], events := [] }
        "u0" "ch1" none "fresh" "txA" "uc1").2.credit_transactions = []) :=
  ⟨by decide, by decide,
   C6_free_unlock
     { chapters := [{ id := "ch1", story_id := "s1", chapter_number := 1,
                      unlock_cost := 10, is_free := true }]
       user_chapters := [], credit_transactions := [], events := [] }
     "u0" "ch1" none "fresh" "txA" "uc1"
     { id := "ch1", story_id := "s1", chapter_number := 1,
       unlock_cost := 10, is_free := true }
     (by decide) (by decide) (by decide) (by decide)⟩

namespace CreditSdk

/-- A row of the `user_credits` table of the secondary "Credit Management SDK"
(the `user_credits` / `chapter_unlocks` schema variant): a stored mutable
balance keyed by user (`user_id` is the primary key, one row per user). -/
structure UserCredit where
  user_id : String
  balance : Int
deriving Repr, DecidableEq

/-- `DeductResult` of the secondary SDK. -/
structure DeductResult where
  success : Bool
  newBalance : Int
deriving Repr, DecidableEq

/-- `getBalance` of the secondary SDK:
`SELECT balance FROM user_credits WHERE user_id = ?`, `result?.balance ?? 0`. -/
def getBalance (tbl : List UserCredit) (userId : String) : Int :=
  ((tbl.find? (fun r => r.user_id == userId)).map (fun r => r.balance)).getD 0

/-- `deductCredits` of the secondary SDK.  `throw new Error('Amount must be
positive')` is modelled as `Except.error`; the in-process `idempotencyStore`
map is the `cache` parameter; the `db.batch` is the conditional UPDATE
(`WHERE user_id = ? AND balance >= ?`) whose `meta.changes === 1` decides
`success` (its second statement inserts into the variant transaction log,
which no modelled computation reads, and is omitted). -/
def deductCredits (tbl : List UserCredit) (cache : List (String × DeductResult))
    (userId : String) (amount : Int) (idempotencyKey : Option String) :
    Except String (DeductResult × List UserCredit × List (String × DeductResult)) :=
  if amount ≤ 0 then Except.error "Amount must be positive"
  else
    match idempotencyKey.bind
        (fun k => (cache.find? (fun e => e.1 == k)).map (fun e => e.2)) with
    | some r => Except.ok (r, tbl, cache)
    | none =>
        let changes := (tbl.filter (fun r => r.user_id == userId && amount ≤ r.balance)).length
        let updated := tbl.map (fun r =>
          if r.user_id == userId && amount ≤ r.balance
          then { r with balance := r.balance - amount } else r)
        let result : DeductResult := { success := changes == 1
                                       newBalance := getBalance updated userId }
        Except.ok (result, updated,
          match idempotencyKey with
          | some k => cache ++ [(k, result)]
          | none => cache)

end CreditSdk

/-- C8 counterexample: the claim says a spend/grant with `amount <= 0` returns
a success=false outcome "without throwing an exception across the ledger
boundary", for every such operation; but the secondary SDK's `deductCredits`
throws `Error('Amount must be positive')` at amount 0 (modelled as
`Except.error`) instead of returning an outcome. -/
theorem C8_counterexample_deduct_throws :
    CreditSdk.deductCredits [] [] "u1" 0 none
      = Except.error "Amount must be positive" := rfl

/-- C8 (amended): for `amount <= 0`, `CreditManager.spend` and
`CreditManager.addCredits` return the `Amount must be positive` failure
outcome (`success = false`) and commit no ledger entry; the secondary SDK's
`deductCredits`, however, throws `Error('Amount must be positive')` rather
than returning an outcome. -/
theorem C8_invalid_amount (txns : List Txn) (txId fresh : String)
    (sin : CreditManager.SpendCreditsInput) (ain : CreditManager.AddCreditsInput)
    (tbl : List CreditSdk.UserCredit) (cache : List (String × CreditSdk.DeductResult))
    (u : String) (amt : Int) (key : Option String)
    (hs : sin.amount ≤ 0) (ha : ain.amount ≤ 0) (hd : amt ≤ 0) :
    CreditManager.spend txns txId sin
      = ({ success := false, newBalance := 0,
           error := some "Amount must be positive" }, txns) ∧
    CreditManager.addCredits txns txId fresh ain
      = ({ success := false, newBalance := 0,
           error := some "Amount must be positive" }, txns) ∧
    CreditSdk.deductCredits tbl cache u amt key
      = Except.error "Amount must be positive" := by
  refine ⟨spend_invalid_amount txns txId sin hs, ?_, ?_⟩
  · simp [CreditManager.addCredits, ha]
  · simp [CreditSdk.deductCredits, hd]

theorem C8_invalid_amount_witness :
    ((0:Int) ≤ 0 ∧ (-3:Int) ≤ 0 ∧ (0:Int) ≤ 0) ∧
    (CreditManager.spend [] "tx1"
        { userId := "u1", amount := 0, storyId := "s1", idempotencyKey := "k1" }
      = ({ success := false, newBalance := 0,
           error := some "Amount must be positive" }, []) ∧
    CreditManager.addCredits [] "tx2" "f1"
        { userId := "u1", amount := -3, transactionType := "BONUS" }
      = ({ success := false, newBalance := 0,
           error := some "Amount must be positive" }, []) ∧
    CreditSdk.deductCredits [] [] "u1" 0 (some "k2")
      = Except.error "Amount must be positive") :=
  ⟨by decide,
   C8_invalid_amount [] "tx1" "f1"
     { userId := "u1", amount := 0, storyId := "s1", idempotencyKey := "k1" }
     { userId := "u1", amount := -3, transactionType := "BONUS" }
     [] [] "u1" 0 (some "k2") (by decide) (by decide) (by decide)⟩
